import Mathlib

/-!
Shallow embedding of the opaws credential pipeline (src/src/index.ts and the
authenticate command source embedded in src/package.json).  The program is an
AWS credential_process provider: it reads cached session credentials from a
JSON file, otherwise resolves long-lived keys from 1Password, exchanges them
with STS (retrying once on an invalid-MFA classification), caches the result
and prints it as JSON on stdout.

External collaborators (the 1Password CLI, the STS service, the filesystem and
the wall clock) are supplied through an `Env` record of response functions.
The JavaScript `Date` serialization pair (`Date.prototype.toISOString` used by
`JSON.stringify` and the `z.string().datetime().transform(s => new Date(s))`
re-parse) is external runtime code, modelled as an abstract `IsoCodec`
encode/decode pair; theorems that depend on it take its round-trip contract as
a hypothesis and witnesses instantiate it with a concrete decimal codec.
-/

namespace Opaws

/-- Log severities used by the program, with winston npm priorities
(error=0, warn=1, info=2, debug=5): a console transport configured at level L
emits exactly the records whose priority is at most the priority of L. -/
inductive Level where
  | error
  | warn
  | info
  | dbg
deriving DecidableEq, Repr

def levelNum : Level → Nat
  | .error => 0
  | .warn => 1
  | .info => 2
  | .dbg => 5

/-- Model of a JavaScript error value as observed by the two classifier
functions of src/src/index.ts: `instanceof` facts and the `Code`, `message`
and `code` properties (a missing property is `none`). -/
structure JsError where
  isError : Bool := true
  isSTSServiceException : Bool := false
  Code : Option String := none
  message : Option String := none
  code : Option String := none
deriving DecidableEq, Repr

/-- Embedding of `isFileNotFoundError` (src/src/index.ts lines 122-126):
`e instanceof Error && "code" in e && e.code === "ENOENT"`. -/
def isFileNotFoundError (e : JsError) : Bool :=
  e.isError && e.code == some "ENOENT"

def invalidMfaMessage : String :=
  "MultiFactorAuthentication failed with invalid MFA one time pass code. "

/-- Embedding of `isInvalidMfaError` (src/src/index.ts lines 128-140):
`e instanceof STSServiceException`, has `Code` and `message`, with
`e.Code === "AccessDenied"` and the exact upstream MFA-failure message. -/
def isInvalidMfaError (e : JsError) : Bool :=
  e.isSTSServiceException && e.Code == some "AccessDenied"
    && e.message == some invalidMfaMessage

/-- Parsed command-line options of the authenticate command
(src/src/index.ts lines 57-94).  `cache = false` corresponds to passing
`--no-cache`; `duration` is the timestring already parsed to seconds. -/
structure Options where
  opAccount : Option String := none
  opVault : Option String := none
  opItem : String
  roleArn : Option String := none
  roleSessionName : Option String := none
  duration : Option Nat := none
  debug : Bool := false
  cache : Bool := true
deriving DecidableEq, Repr

/-- Embedding of `sanitizeFilename` (src/src/index.ts lines 118-120):
`filename.replace(/[/\\?%*:|"<>]/g, "-")` replaces every character of the
class by a dash; since the class matches single characters and the replacement
is global, this is a character-wise map over the string. -/
def sanitizeFilename (filename : String) : String :=
  String.mk (filename.data.map fun ch =>
    if ch = '/' ∨ ch = '\\' ∨ ch = '?' ∨ ch = '%' ∨ ch = '*' ∨ ch = ':'
        ∨ ch = '|' ∨ ch = '"' ∨ ch = '<' ∨ ch = '>' then '-' else ch)

/-- Embedding of `getCacheFilename` (src/src/index.ts lines 150-163): the six
components joined by "-", sanitized with `.json` appended, placed under the
temporary directory by `join` (modelled as prepending `tmp ++ "/"`). -/
def getCacheFilename (tmp : String) (options : Options) : String :=
  let cacheKey := String.intercalate "-"
    [ "opaws-cache"
    , options.opAccount.getD "default"
    , options.opVault.getD "default"
    , options.opItem
    , options.roleArn.getD "default"
    , options.roleSessionName.getD "default" ]
  tmp ++ "/" ++ sanitizeFilename (cacheKey ++ ".json")

/-- Embedding of `getTotpSecondsRemaining` (src/src/index.ts lines 142-148):
`30 - (Math.floor(Date.now() / 1000) % 30)` with the clock in milliseconds
(nonnegative, so floor division is Euclidean division). -/
def getTotpSecondsRemaining (nowMs : Int) : Int :=
  30 - (nowMs / 1000) % 30

/-- JSON documents, for the cache file contents and the stdout payload. -/
inductive Json where
  | null
  | bool (b : Bool)
  | num (n : Int)
  | str (s : String)
  | arr (elems : List Json)
  | obj (fields : List (String × Json))

/-- Property lookup in a JSON object field list (later duplicates ignored,
as in a parsed JavaScript object no duplicates occur). -/
def jlookup (fields : List (String × Json)) (key : String) : Option Json :=
  match fields with
  | [] => none
  | (k, v) :: rest => if k = key then some v else jlookup rest key

/-- The external `Date` serialization pair: `enc` stands for
`Date.prototype.toISOString` (what `JSON.stringify` emits for a `Date`) and
`dec` for the zod `z.string().datetime()` validation composed with
`new Date(s).getTime()`.  Both operate on milliseconds since the epoch. -/
structure IsoCodec where
  enc : Int → String
  dec : String → Option Int

/-- Session credentials as used by the program: the four fields of the AWS
`Credentials` shape, with `Expiration` as milliseconds since the epoch
(the value of `Date.prototype.getTime`). -/
structure Credentials where
  AccessKeyId : String
  SecretAccessKey : String
  SessionToken : String
  Expiration : Int
deriving DecidableEq, Repr

/-- The JSON document produced by `JSON.stringify(maybeCreds, null, 2)` in
`generateCredentials` (src/src/index.ts line 348): the four credential fields,
the `Expiration` date rendered through the ISO encoder. -/
def credsToJson (iso : IsoCodec) (c : Credentials) : Json :=
  .obj [ ("AccessKeyId", .str c.AccessKeyId)
       , ("SecretAccessKey", .str c.SecretAccessKey)
       , ("SessionToken", .str c.SessionToken)
       , ("Expiration", .str (iso.enc c.Expiration)) ]

/-- The zod schema applied to the parsed cache file
(src/src/index.ts lines 211-221): an object with string `AccessKeyId`,
`SecretAccessKey`, `SessionToken` and a datetime-string `Expiration`
transformed to a `Date`. -/
def zodCachedCredsParse (iso : IsoCodec) (j : Json) : Option Credentials :=
  match j with
  | .obj fields =>
    match jlookup fields "AccessKeyId", jlookup fields "SecretAccessKey",
        jlookup fields "SessionToken", jlookup fields "Expiration" with
    | some (.str a), some (.str s), some (.str t), some (.str e) =>
      match iso.dec e with
      | some ms => some ⟨a, s, t, ms⟩
      | none => none
    | _, _, _, _ => none
  | _ => none

/-- The state of the cache file as seen by one `readFile` call:
either the read throws (`err e`, with `e.code = "ENOENT"` for a missing
file) or it yields text, which `JSON.parse` either rejects (`data none`)
or parses to a document (`data (some j)`). -/
inductive CacheFile where
  | err (e : JsError)
  | data (j : Option Json)

/-- Events of one invocation, recorded in order: log records, cache reads
(with hit flag), secret resolutions, exchange attempts, retry waits, cache
writes, lock transitions and the final stdout emission. -/
inductive Ev where
  | log (lvl : Level) (msg : String)
  | cacheRead (i : Nat) (hit : Bool)
  | resolve (i : Nat)
  | exchange (i : Nat) (ok : Bool)
  | wait (seconds : Int)
  | cacheWrite (filename : String) (doc : Json)
  | lockAcquire
  | lockRelease
  | stdoutJson (j : Json)

/-- Embedding of `getCachedSessionCredentials` (src/src/index.ts lines
194-232).  Returns the log records it produces and either a thrown error
(a `readFile` failure other than ENOENT is re-thrown), or `none` for a miss
(missing file at debug level, unparseable or schema-invalid content at
warning level, expired record at info level), or the credentials. -/
def getCachedSessionCredentials (iso : IsoCodec) (file : CacheFile)
    (nowMs : Int) : List Ev × Except JsError (Option Credentials) :=
  match file with
  | .err e =>
    if isFileNotFoundError e then
      ([.log .dbg "No cached credentials found."], .ok none)
    else
      ([], .error e)
  | .data none =>
    ([.log .dbg "Found cached credentials",
      .log .warn "Invalid cached credentials."], .ok none)
  | .data (some j) =>
    match zodCachedCredsParse iso j with
    | none =>
      ([.log .dbg "Found cached credentials",
        .log .warn "Invalid cached credentials."], .ok none)
    | some creds =>
      if creds.Expiration < nowMs then
        ([.log .dbg "Found cached credentials",
          .log .info "Cached credentials expired."], .ok none)
      else
        ([.log .dbg "Found cached credentials"], .ok (some creds))

/-- A field of the 1Password item after `keyBy(item.fields, "label")`:
its `type` string, its `value` if it is a string, and its `totp` if it is a
string (absent properties are `none`). -/
structure OpField where
  type : String
  value : Option String := none
  totp : Option String := none
deriving DecidableEq, Repr

/-- The label-indexed field map of a 1Password item, i.e. the object built by
`keyBy(item.fields, "label")` (a label not on the item maps to `none`). -/
def OpFields : Type := String → Option OpField

/-- Result of the `opSchema` intersection (src/src/index.ts lines 27-55):
the two base field values plus the all-or-nothing MFA pair. -/
structure OpParsed where
  accessKeyId : String
  secretAccessKey : String
  mfa : Option (String × String)
deriving DecidableEq, Repr

/-- Embedding of `opSchema.safeParse` (src/src/index.ts lines 27-55, applied
at line 254): the base object requires `access key id` of type STRING with a
string value and `secret access key` of type CONCEALED or STRING with a
string value; the intersected union requires either both `mfa serial`
(STRING, string value) and `one-time password` (OTP, string totp), or both
labels absent. -/
def opSchemaParse (fields : OpFields) : Option OpParsed :=
  match fields "access key id", fields "secret access key" with
  | some ak, some sk =>
    match ak.value, sk.value with
    | some akv, some skv =>
      if ak.type = "STRING" ∧ (sk.type = "CONCEALED" ∨ sk.type = "STRING") then
        match fields "mfa serial", fields "one-time password" with
        | some ms, some otp =>
          match ms.value, otp.totp with
          | some msv, some totpv =>
            if ms.type = "STRING" ∧ otp.type = "OTP" then
              some ⟨akv, skv, some (msv, totpv)⟩
            else none
          | _, _ => none
        | none, none => some ⟨akv, skv, none⟩
        | _, _ => none
      else none
    | _, _ => none
  | _, _ => none

/-- The resolved AWS key material (the `AwsKeys` type of src/src/index.ts
lines 19-25, produced at lines 264-269). -/
structure AwsKeys where
  accessKeyId : String
  secretAccessKey : String
  mfaSerial : Option String := none
  totp : Option String := none
deriving DecidableEq, Repr

/-- The error thrown by `get1pAwsKeys` when the zod parse fails
(src/src/index.ts lines 259-261). -/
def invalidSecretSchemaError : JsError :=
  { message := some "1Password item is missing some fields, or they are the wrong type" }

/-- Embedding of `get1pAwsKeys` (src/src/index.ts lines 234-270).  The
`op.item.get` collaborator call is supplied as `fetched` (it throws when the
item cannot be located).  On a schema failure the function logs the zod error
at warn level, the help text at error level and throws; otherwise it returns
the key material. -/
def get1pAwsKeys (fetched : Except JsError OpFields) :
    List Ev × Except JsError AwsKeys :=
  match fetched with
  | .error e => ([.log .dbg "Looking for item in 1password"], .error e)
  | .ok fields =>
    match opSchemaParse fields with
    | none =>
      ([.log .dbg "Looking for item in 1password",
        .log .dbg "Found 1password item",
        .log .warn "zod validation error",
        .log .error "help information"], .error invalidSecretSchemaError)
    | some p =>
      ([.log .dbg "Looking for item in 1password",
        .log .dbg "Found 1password item"],
       .ok ⟨p.accessKeyId, p.secretAccessKey, p.mfa.map Prod.fst,
            p.mfa.map Prod.snd⟩)

/-- The request issued to STS by `getNewSessionCredentials`: either
`getSessionToken` or `assumeRole`, with the fields the source passes
(src/src/index.ts lines 282-300; the client itself is constructed from
`keys.accessKeyId` / `keys.secretAccessKey`, carried here too). -/
inductive StsRequest where
  | getSessionToken (accessKeyId secretAccessKey : String)
      (serialNumber tokenCode : Option String) (durationSeconds : Option Nat)
  | assumeRole (accessKeyId secretAccessKey : String)
      (serialNumber tokenCode : Option String) (roleArn : String)
      (roleSessionName : Option String) (durationSeconds : Option Nat)
deriving DecidableEq, Repr

/-- Request construction of `getNewSessionCredentials` in the authenticate
command source (src/package.json embedded authenticate.ts, the
`sts.assumeRole` call): when `roleArn` is present, `RoleSessionName` is
`options.roleSessionName ?? "temporary-session-" ++ Date.now().toString()`,
so the wire field is always a present string. -/
def buildStsRequest (options : Options) (keys : AwsKeys) (nowMs : Int) :
    StsRequest :=
  match options.roleArn with
  | none =>
    .getSessionToken keys.accessKeyId keys.secretAccessKey
      keys.mfaSerial keys.totp options.duration
  | some arn =>
    .assumeRole keys.accessKeyId keys.secretAccessKey
      keys.mfaSerial keys.totp arn
      (some (options.roleSessionName.getD
        ("temporary-session-" ++ toString nowMs)))
      options.duration

/-- The error thrown when the STS response carries no credential payload
(src/src/index.ts lines 302-304). -/
def failedToGenerateError : JsError :=
  { message := some "Failed to generate AWS session credentials." }

/-- Embedding of `getNewSessionCredentials` (src/src/index.ts lines 272-307):
issue the request built from the options and keys; propagate an upstream
error; a nominally successful response with no credentials throws. -/
def getNewSessionCredentials
    (stsCall : StsRequest → Except JsError (Option Credentials))
    (options : Options) (keys : AwsKeys) (nowMs : Int) :
    Except JsError Credentials :=
  match stsCall (buildStsRequest options keys nowMs) with
  | .error e => .error e
  | .ok none => .error failedToGenerateError
  | .ok (some c) => .ok c

/-- The external world of one invocation, indexed by loop iteration `i`:
the wall clock during iteration `i`, the cache file state seen by the `i`-th
read, the 1Password lookup result of the `i`-th resolution, and the STS
response to the `i`-th exchange request.  `tmp` is the temporary directory. -/
structure Env where
  tmp : String
  now : Nat → Int
  cacheFileAt : Nat → CacheFile
  opItemAt : Nat → Except JsError OpFields
  stsCall : Nat → StsRequest → Except JsError (Option Credentials)

/-- Outcome of one iteration of the `for` loop in `generateCredentials`
(src/src/index.ts lines 317-345), tagged with where the iteration ended:
an early return on a cache hit, credentials obtained from an exchange,
an error thrown from the cache read, the resolver, or the exchange (not
retried), or an invalid-MFA failure on attempt 0 that schedules the retry. -/
inductive IterOut where
  | earlyReturn (c : Credentials)
  | gotCreds (c : Credentials)
  | thrownCache (e : JsError)
  | thrownResolve (e : JsError)
  | thrownExchange (e : JsError)
  | retryWait (e : JsError)

/-- The cache step at the head of a loop iteration (src/src/index.ts lines
318-323): consult the cache when caching is enabled, else log and miss. -/
def cacheStep (iso : IsoCodec) (options : Options) (env : Env) (i : Nat) :
    List Ev × Except JsError (Option Credentials) :=
  if options.cache then
    let read := getCachedSessionCredentials iso (env.cacheFileAt i) (env.now i)
    (.cacheRead i (match read.2 with | .ok (some _) => true | _ => false)
       :: read.1,
     read.2)
  else
    ([.log .dbg "Skipping cache"], .ok none)

/-- One iteration of the acquisition loop (src/src/index.ts lines 317-345):
cache step; on a miss, resolve the secret (errors propagate uncaught), build
and issue the exchange; on an exchange error, re-throw unless it is the
invalid-MFA classification on iteration 0, in which case wait for the code
to cycle plus a 3 second margin and continue. -/
def iter (iso : IsoCodec) (options : Options) (env : Env) (i : Nat) :
    List Ev × IterOut :=
  match cacheStep iso options env i with
  | (cevs, .error e) => (cevs, .thrownCache e)
  | (cevs, .ok (some c)) => (cevs, .earlyReturn c)
  | (cevs, .ok none) =>
    match get1pAwsKeys (env.opItemAt i) with
    | (revs, .error e) => (cevs ++ .resolve i :: revs, .thrownResolve e)
    | (revs, .ok keys) =>
      match getNewSessionCredentials (env.stsCall i) options keys (env.now i) with
      | .ok c =>
        (cevs ++ .resolve i :: revs ++ [.exchange i true], .gotCreds c)
      | .error e =>
        if !isInvalidMfaError e || 0 < i then
          (cevs ++ .resolve i :: revs ++ [.exchange i false], .thrownExchange e)
        else
          (cevs ++ .resolve i :: revs ++
            [.exchange i false,
             .log .warn "Invalid MFA code on first attempt.",
             .wait (getTotpSecondsRemaining (env.now i) + 3)],
           .retryWait e)

/-- The error of the `assert.ok(maybeCreds != null)` guard
(src/src/index.ts line 347); the corresponding branch is unreachable. -/
def assertionFailedError : JsError :=
  { message := some "assertion failed" }

/-- The body of the `withLockInternal` callback in `generateCredentials`
(src/src/index.ts lines 312-350): at most two loop iterations; a cache hit
returns the cached credentials directly (no cache write); fresh credentials
are written to the cache file before returning; thrown errors propagate. -/
def lockBody (iso : IsoCodec) (options : Options) (env : Env) :
    List Ev × Except JsError Credentials :=
  match iter iso options env 0 with
  | (t, .earlyReturn c) => (t, .ok c)
  | (t, .gotCreds c) =>
    (t ++ [.cacheWrite (getCacheFilename env.tmp options) (credsToJson iso c)],
     .ok c)
  | (t, .thrownCache e) => (t, .error e)
  | (t, .thrownResolve e) => (t, .error e)
  | (t, .thrownExchange e) => (t, .error e)
  | (t, .retryWait _) =>
    match iter iso options env 1 with
    | (t', .earlyReturn c) => (t ++ t', .ok c)
    | (t', .gotCreds c) =>
      (t ++ t' ++
        [.cacheWrite (getCacheFilename env.tmp options) (credsToJson iso c)],
       .ok c)
    | (t', .thrownCache e) => (t ++ t', .error e)
    | (t', .thrownResolve e) => (t ++ t', .error e)
    | (t', .thrownExchange e) => (t ++ t', .error e)
    | (t', .retryWait _) => (t ++ t', .error assertionFailedError)

/-- The stdout payload on success (src/src/index.ts lines 352-361):
`JSON.stringify({...creds, Version: 1}, null, 2)` — the four credential
fields in spread order followed by the literal `Version: 1`. -/
def outputJson (iso : IsoCodec) (c : Credentials) : Json :=
  .obj [ ("AccessKeyId", .str c.AccessKeyId)
       , ("SecretAccessKey", .str c.SecretAccessKey)
       , ("SessionToken", .str c.SessionToken)
       , ("Expiration", .str (iso.enc c.Expiration))
       , ("Version", .num 1) ]

/-- Embedding of `generateCredentials` (src/src/index.ts lines 309-362)
including the `withLockInternal` wrapper (lines 165-192): the info log, the
jitter log, lock acquisition, the locked body, the release on every exit
path, and on success the single `console.log` of the output JSON. -/
def generateCredentials (iso : IsoCodec) (options : Options) (env : Env) :
    List Ev × Except JsError Credentials :=
  let pre : List Ev :=
    [.log .info "Generating credentials", .log .dbg "Jittering",
     .lockAcquire, .log .dbg "Lock acquired"]
  match lockBody iso options env with
  | (t, .ok c) =>
    (pre ++ t ++ [.lockRelease, .stdoutJson (outputJson iso c)], .ok c)
  | (t, .error e) => (pre ++ t ++ [.lockRelease], .error e)

/-- What an invocation writes to stdout: log records pass through the winston
console transport exactly when their priority is at most the transport level
(debug with `--debug`, error otherwise; the transport is constructed without
`stderrLevels`, so its output goes to stdout), and the final credential JSON
is written by `console.log`. -/
inductive OutItem where
  | text (msg : String)
  | json (j : Json)

/-- The stdout contribution of a single event: a log record appears on
stdout exactly when its priority passes the console transport level, the
`console.log` payload always appears, and nothing else does. -/
def stdoutItem (options : Options) (ev : Ev) : Option OutItem :=
  match ev with
  | .log lvl msg =>
    if levelNum lvl ≤ (if options.debug then levelNum .dbg else levelNum .error)
    then some (.text msg) else none
  | .stdoutJson j => some (.json j)
  | _ => none

def stdoutOf (options : Options) (t : List Ev) : List OutItem :=
  t.filterMap (stdoutItem options)

/-- Number of exchange attempts recorded in a trace. -/
def countExchange : List Ev → Nat
  | [] => 0
  | .exchange _ _ :: t => countExchange t + 1
  | _ :: t => countExchange t

/-- Number of retry waits recorded in a trace. -/
def countWait : List Ev → Nat
  | [] => 0
  | .wait _ :: t => countWait t + 1
  | _ :: t => countWait t

/-- Number of secret resolutions recorded in a trace. -/
def countResolve : List Ev → Nat
  | [] => 0
  | .resolve _ :: t => countResolve t + 1
  | _ :: t => countResolve t

/-- Number of cache writes recorded in a trace. -/
def countCacheWrite : List Ev → Nat
  | [] => 0
  | .cacheWrite _ _ :: t => countCacheWrite t + 1
  | _ :: t => countCacheWrite t

/-- Number of cache reads recorded in a trace. -/
def countCacheRead : List Ev → Nat
  | [] => 0
  | .cacheRead _ _ :: t => countCacheRead t + 1
  | _ :: t => countCacheRead t

/-- Number of error-level log records in a trace. -/
def countErrLog : List Ev → Nat
  | [] => 0
  | .log .error _ :: t => countErrLog t + 1
  | _ :: t => countErrLog t

/-- Number of stdout emissions in a trace. -/
def countStdout : List Ev → Nat
  | [] => 0
  | .stdoutJson _ :: t => countStdout t + 1
  | _ :: t => countStdout t

theorem countExchange_append (a b : List Ev) :
    countExchange (a ++ b) = countExchange a + countExchange b := by
  induction a with
  | nil => simp [countExchange]
  | cons hd tl ih => cases hd <;> simp [countExchange, ih] <;> omega

theorem countWait_append (a b : List Ev) :
    countWait (a ++ b) = countWait a + countWait b := by
  induction a with
  | nil => simp [countWait]
  | cons hd tl ih => cases hd <;> simp [countWait, ih] <;> omega

theorem countResolve_append (a b : List Ev) :
    countResolve (a ++ b) = countResolve a + countResolve b := by
  induction a with
  | nil => simp [countResolve]
  | cons hd tl ih => cases hd <;> simp [countResolve, ih] <;> omega

theorem countCacheWrite_append (a b : List Ev) :
    countCacheWrite (a ++ b) = countCacheWrite a + countCacheWrite b := by
  induction a with
  | nil => simp [countCacheWrite]
  | cons hd tl ih => cases hd <;> simp [countCacheWrite, ih] <;> omega

theorem countCacheRead_append (a b : List Ev) :
    countCacheRead (a ++ b) = countCacheRead a + countCacheRead b := by
  induction a with
  | nil => simp [countCacheRead]
  | cons hd tl ih => cases hd <;> simp [countCacheRead, ih] <;> omega

theorem countErrLog_append (a b : List Ev) :
    countErrLog (a ++ b) = countErrLog a + countErrLog b := by
  induction a with
  | nil => simp [countErrLog]
  | cons hd tl ih =>
    cases hd with
    | log lvl msg => cases lvl <;> simp [countErrLog, ih] <;> omega
    | _ => simp [countErrLog, ih]

theorem countStdout_append (a b : List Ev) :
    countStdout (a ++ b) = countStdout a + countStdout b := by
  induction a with
  | nil => simp [countStdout]
  | cons hd tl ih => cases hd <;> simp [countStdout, ih] <;> omega

/-- All non-log counts of the cache-read trace vanish, and it contains no
error-level log (its records are debug, warn or info). -/
theorem cacheTrace_counts (iso : IsoCodec) (file : CacheFile) (nowMs : Int) :
    countExchange (getCachedSessionCredentials iso file nowMs).1 = 0
    ∧ countWait (getCachedSessionCredentials iso file nowMs).1 = 0
    ∧ countResolve (getCachedSessionCredentials iso file nowMs).1 = 0
    ∧ countCacheWrite (getCachedSessionCredentials iso file nowMs).1 = 0
    ∧ countCacheRead (getCachedSessionCredentials iso file nowMs).1 = 0
    ∧ countErrLog (getCachedSessionCredentials iso file nowMs).1 = 0
    ∧ countStdout (getCachedSessionCredentials iso file nowMs).1 = 0 := by
  unfold getCachedSessionCredentials
  split
  · split <;> exact ⟨rfl, rfl, rfl, rfl, rfl, rfl, rfl⟩
  · exact ⟨rfl, rfl, rfl, rfl, rfl, rfl, rfl⟩
  · split
    · exact ⟨rfl, rfl, rfl, rfl, rfl, rfl, rfl⟩
    · split <;> exact ⟨rfl, rfl, rfl, rfl, rfl, rfl, rfl⟩

/-- Counts of the cache-step trace: exactly one cache read when caching is
enabled, none otherwise, and nothing else. -/
theorem cacheStep_counts (iso : IsoCodec) (options : Options) (env : Env)
    (i : Nat) :
    countExchange (cacheStep iso options env i).1 = 0
    ∧ countWait (cacheStep iso options env i).1 = 0
    ∧ countResolve (cacheStep iso options env i).1 = 0
    ∧ countCacheWrite (cacheStep iso options env i).1 = 0
    ∧ countCacheRead (cacheStep iso options env i).1
        = (if options.cache then 1 else 0)
    ∧ countErrLog (cacheStep iso options env i).1 = 0
    ∧ countStdout (cacheStep iso options env i).1 = 0 := by
  obtain ⟨h1, h2, h3, h4, h5, h6, h7⟩ :=
    cacheTrace_counts iso (env.cacheFileAt i) (env.now i)
  cases hc : options.cache
  · simp [cacheStep, hc, countExchange, countWait, countResolve,
      countCacheWrite, countCacheRead, countErrLog, countStdout]
  · simp [cacheStep, hc, countExchange, countWait, countResolve,
      countCacheWrite, countCacheRead, countErrLog, countStdout,
      h1, h2, h3, h4, h5, h6, h7]

/-- The resolver trace consists of log records only; it contains an
error-level record only on the schema-failure path. -/
theorem get1pTrace_counts (fetched : Except JsError OpFields) :
    countExchange (get1pAwsKeys fetched).1 = 0
    ∧ countWait (get1pAwsKeys fetched).1 = 0
    ∧ countResolve (get1pAwsKeys fetched).1 = 0
    ∧ countCacheWrite (get1pAwsKeys fetched).1 = 0
    ∧ countCacheRead (get1pAwsKeys fetched).1 = 0
    ∧ countStdout (get1pAwsKeys fetched).1 = 0
    ∧ ((get1pAwsKeys fetched).2.isOk → countErrLog (get1pAwsKeys fetched).1 = 0) := by
  unfold get1pAwsKeys
  split
  · exact ⟨rfl, rfl, rfl, rfl, rfl, rfl, fun _ => rfl⟩
  · split
    · exact ⟨rfl, rfl, rfl, rfl, rfl, rfl, by simp [Except.isOk, Except.toBool]⟩
    · exact ⟨rfl, rfl, rfl, rfl, rfl, rfl, fun _ => rfl⟩

/-- Event counts of one loop iteration, by outcome: the iteration performs at
most one cache read (exactly one when caching is enabled), at most one
resolution and at most one exchange, waits only on the MFA-retry outcome,
never writes the cache and never writes stdout. -/
theorem iter_counts (iso : IsoCodec) (options : Options) (env : Env) (i : Nat) :
    countCacheWrite (iter iso options env i).1 = 0
    ∧ countStdout (iter iso options env i).1 = 0
    ∧ countCacheRead (iter iso options env i).1
        = (if options.cache then 1 else 0)
    ∧ (match (iter iso options env i).2 with
       | .earlyReturn _ =>
           countExchange (iter iso options env i).1 = 0
           ∧ countWait (iter iso options env i).1 = 0
           ∧ countResolve (iter iso options env i).1 = 0
           ∧ countErrLog (iter iso options env i).1 = 0
       | .thrownCache _ =>
           countExchange (iter iso options env i).1 = 0
           ∧ countWait (iter iso options env i).1 = 0
           ∧ countResolve (iter iso options env i).1 = 0
           ∧ countErrLog (iter iso options env i).1 = 0
       | .thrownResolve _ =>
           countExchange (iter iso options env i).1 = 0
           ∧ countWait (iter iso options env i).1 = 0
           ∧ countResolve (iter iso options env i).1 = 1
       | .gotCreds _ =>
           countExchange (iter iso options env i).1 = 1
           ∧ countWait (iter iso options env i).1 = 0
           ∧ countResolve (iter iso options env i).1 = 1
           ∧ countErrLog (iter iso options env i).1 = 0
       | .thrownExchange _ =>
           countExchange (iter iso options env i).1 = 1
           ∧ countWait (iter iso options env i).1 = 0
           ∧ countResolve (iter iso options env i).1 = 1
           ∧ countErrLog (iter iso options env i).1 = 0
       | .retryWait _ =>
           countExchange (iter iso options env i).1 = 1
           ∧ countWait (iter iso options env i).1 = 1
           ∧ countResolve (iter iso options env i).1 = 1
           ∧ countErrLog (iter iso options env i).1 = 0) := by
  obtain ⟨c1, c2, c3, c4, c5, c6, c7⟩ := cacheStep_counts iso options env i
  obtain ⟨g1, g2, g3, g4, g5, g6, g7⟩ := get1pTrace_counts (env.opItemAt i)
  unfold iter
  split
  next cevs e heq =>
    rw [heq] at c1 c2 c3 c4 c5 c6 c7
    simp_all
  next cevs c heq =>
    rw [heq] at c1 c2 c3 c4 c5 c6 c7
    simp_all
  next cevs heq =>
    rw [heq] at c1 c2 c3 c4 c5 c6 c7
    simp only at c1 c2 c3 c4 c5 c6 c7
    split
    next revs e heq2 =>
      rw [heq2] at g1 g2 g3 g4 g5 g6 g7
      simp only at g1 g2 g3 g4 g5 g6 g7
      simp [countCacheWrite_append, countStdout_append, countCacheRead_append,
        countExchange_append, countWait_append, countResolve_append,
        countErrLog_append, countCacheWrite, countStdout, countCacheRead,
        countExchange, countWait, countResolve, countErrLog,
        c1, c2, c3, c4, c5, c6, c7, g1, g2, g3, g4, g5, g6]
    next revs keys heq2 =>
      rw [heq2] at g1 g2 g3 g4 g5 g6 g7
      simp only at g1 g2 g3 g4 g5 g6 g7
      have g8 := g7 rfl
      split
      next c heq3 =>
        simp [countCacheWrite_append, countStdout_append, countCacheRead_append,
          countExchange_append, countWait_append, countResolve_append,
          countErrLog_append, countCacheWrite, countStdout, countCacheRead,
          countExchange, countWait, countResolve, countErrLog,
          c1, c2, c3, c4, c5, c6, c7, g1, g2, g3, g4, g5, g6, g8]
      next e heq3 =>
        split <;>
          simp [countCacheWrite_append, countStdout_append, countCacheRead_append,
            countExchange_append, countWait_append, countResolve_append,
            countErrLog_append, countCacheWrite, countStdout, countCacheRead,
            countExchange, countWait, countResolve, countErrLog,
            c1, c2, c3, c4, c5, c6, c7, g1, g2, g3, g4, g5, g6, g8]

/-- A retry is scheduled only on iteration 0 and only for the invalid-MFA
classification (the guard `!isInvalidMfaError(e) || i > 0` rethrows in every
other case). -/
theorem iter_retryWait_inv (iso : IsoCodec) (options : Options) (env : Env)
    (i : Nat) (e : JsError) (h : (iter iso options env i).2 = .retryWait e) :
    isInvalidMfaError e = true ∧ i = 0 := by
  unfold iter at h
  split at h
  · simp only at h; exact IterOut.noConfusion h
  · simp only at h; exact IterOut.noConfusion h
  · split at h
    · simp only at h; exact IterOut.noConfusion h
    · split at h
      · simp only at h; exact IterOut.noConfusion h
      · next e2 heq2 =>
        split at h
        · simp only at h; exact IterOut.noConfusion h
        · next hcond =>
            simp only at h
            injection h with he
            have hb : isInvalidMfaError e2 = true ∧ ¬ (0 < i) := by
              by_cases hm : isInvalidMfaError e2
              · refine ⟨hm, fun hi => hcond (by simp [hi])⟩
              · rw [Bool.not_eq_true] at hm
                exact absurd (by simp [hm]) hcond
            exact ⟨he ▸ hb.1, by omega⟩

/-- On iteration 0, an exchange error that is rethrown immediately is not the
invalid-MFA classification. -/
theorem iter_thrownExchange_zero_inv (iso : IsoCodec) (options : Options)
    (env : Env) (e : JsError)
    (h : (iter iso options env 0).2 = .thrownExchange e) :
    isInvalidMfaError e = false := by
  unfold iter at h
  split at h
  · simp only at h; exact IterOut.noConfusion h
  · simp only at h; exact IterOut.noConfusion h
  · split at h
    · simp only at h; exact IterOut.noConfusion h
    · split at h
      · simp only at h; exact IterOut.noConfusion h
      · next e2 heq2 =>
        split at h
        · next hcond =>
            simp only at h
            injection h with he
            rw [← he]
            by_cases hm : isInvalidMfaError e2
            · rw [hm] at hcond
              simp at hcond
            · rwa [Bool.not_eq_true] at hm
        · simp only at h; exact IterOut.noConfusion h

/-- The first loop iteration reached the session exchange and the exchange
call failed with error `e` (it was either rethrown or, for the invalid-MFA
classification, scheduled the retry). -/
def firstExchangeFailsWith (iso : IsoCodec) (options : Options) (env : Env)
    (e : JsError) : Prop :=
  (iter iso options env 0).2 = .thrownExchange e
    ∨ (iter iso options env 0).2 = .retryWait e

/-- The second loop iteration reached the session exchange and the exchange
call failed with error `e` (on iteration 1 every exchange error is thrown). -/
def secondExchangeFailsWith (iso : IsoCodec) (options : Options) (env : Env)
    (e : JsError) : Prop :=
  (iter iso options env 1).2 = .thrownExchange e

/-- The wrapper adds only the fixed preamble, the lock release and (on
success) the stdout emission around the locked body: its result is the body
result and the acquisition-related counts coincide with the body counts. -/
theorem gen_vs_lockBody (iso : IsoCodec) (options : Options) (env : Env) :
    (generateCredentials iso options env).2 = (lockBody iso options env).2
    ∧ countExchange (generateCredentials iso options env).1
        = countExchange (lockBody iso options env).1
    ∧ countWait (generateCredentials iso options env).1
        = countWait (lockBody iso options env).1
    ∧ countResolve (generateCredentials iso options env).1
        = countResolve (lockBody iso options env).1
    ∧ countCacheWrite (generateCredentials iso options env).1
        = countCacheWrite (lockBody iso options env).1
    ∧ countCacheRead (generateCredentials iso options env).1
        = countCacheRead (lockBody iso options env).1 := by
  unfold generateCredentials
  split <;>
  next t r heq =>
    rw [heq]
    simp [countExchange_append, countWait_append, countResolve_append,
      countCacheWrite_append, countCacheRead_append,
      countExchange, countWait, countResolve, countCacheWrite, countCacheRead]

/-- When the first iteration throws from the exchange, the locked body fails
with that error after a single exchange attempt and no wait. -/
theorem lockBody_first_thrownExchange (iso : IsoCodec) (options : Options)
    (env : Env) (e : JsError)
    (h : (iter iso options env 0).2 = .thrownExchange e) :
    (lockBody iso options env).2 = .error e
    ∧ countExchange (lockBody iso options env).1 = 1
    ∧ countWait (lockBody iso options env).1 = 0 := by
  have ic := iter_counts iso options env 0
  rcases h0 : iter iso options env 0 with ⟨t0, out0⟩
  rw [h0] at ic h
  simp only at ic h
  subst h
  unfold lockBody
  rw [h0]
  exact ⟨rfl, ic.2.2.2.1, ic.2.2.2.2.1⟩

/-- Counts common to every iteration outcome, phrased on the trace. -/
theorem iterPair_base (iso : IsoCodec) (options : Options) (env : Env)
    (i : Nat) (t : List Ev) (out : IterOut)
    (h : iter iso options env i = (t, out)) :
    countCacheWrite t = 0 ∧ countStdout t = 0
    ∧ countCacheRead t = (if options.cache then 1 else 0) := by
  have ic := iter_counts iso options env i
  rw [h] at ic
  exact ⟨ic.1, ic.2.1, ic.2.2.1⟩

theorem iterPair_earlyReturn (iso : IsoCodec) (options : Options) (env : Env)
    (i : Nat) (t : List Ev) (c : Credentials)
    (h : iter iso options env i = (t, .earlyReturn c)) :
    countExchange t = 0 ∧ countWait t = 0 ∧ countResolve t = 0
    ∧ countErrLog t = 0 := by
  have ic := iter_counts iso options env i
  rw [h] at ic
  exact ic.2.2.2

theorem iterPair_gotCreds (iso : IsoCodec) (options : Options) (env : Env)
    (i : Nat) (t : List Ev) (c : Credentials)
    (h : iter iso options env i = (t, .gotCreds c)) :
    countExchange t = 1 ∧ countWait t = 0 ∧ countResolve t = 1
    ∧ countErrLog t = 0 := by
  have ic := iter_counts iso options env i
  rw [h] at ic
  exact ic.2.2.2

theorem iterPair_thrownCache (iso : IsoCodec) (options : Options) (env : Env)
    (i : Nat) (t : List Ev) (e : JsError)
    (h : iter iso options env i = (t, .thrownCache e)) :
    countExchange t = 0 ∧ countWait t = 0 ∧ countResolve t = 0
    ∧ countErrLog t = 0 := by
  have ic := iter_counts iso options env i
  rw [h] at ic
  exact ic.2.2.2

theorem iterPair_thrownResolve (iso : IsoCodec) (options : Options) (env : Env)
    (i : Nat) (t : List Ev) (e : JsError)
    (h : iter iso options env i = (t, .thrownResolve e)) :
    countExchange t = 0 ∧ countWait t = 0 ∧ countResolve t = 1 := by
  have ic := iter_counts iso options env i
  rw [h] at ic
  exact ic.2.2.2

theorem iterPair_thrownExchange (iso : IsoCodec) (options : Options)
    (env : Env) (i : Nat) (t : List Ev) (e : JsError)
    (h : iter iso options env i = (t, .thrownExchange e)) :
    countExchange t = 1 ∧ countWait t = 0 ∧ countResolve t = 1
    ∧ countErrLog t = 0 := by
  have ic := iter_counts iso options env i
  rw [h] at ic
  exact ic.2.2.2

theorem iterPair_retryWait (iso : IsoCodec) (options : Options) (env : Env)
    (i : Nat) (t : List Ev) (e : JsError)
    (h : iter iso options env i = (t, .retryWait e)) :
    countExchange t = 1 ∧ countWait t = 1 ∧ countResolve t = 1
    ∧ countErrLog t = 0 := by
  have ic := iter_counts iso options env i
  rw [h] at ic
  exact ic.2.2.2

/-- When the first iteration schedules the MFA retry, the locked body waits
exactly once, attempts at most one further exchange, and if the second
iteration also throws from the exchange the body fails with that error after
exactly two exchanges and two resolutions. -/
theorem lockBody_retry (iso : IsoCodec) (options : Options) (env : Env)
    (e : JsError) (h : (iter iso options env 0).2 = .retryWait e) :
    countWait (lockBody iso options env).1 = 1
    ∧ countExchange (lockBody iso options env).1 ≤ 2
    ∧ (∀ e2, (iter iso options env 1).2 = .thrownExchange e2 →
        (lockBody iso options env).2 = .error e2
        ∧ countExchange (lockBody iso options env).1 = 2
        ∧ countResolve (lockBody iso options env).1 = 2) := by
  rcases h0 : iter iso options env 0 with ⟨t0, out0⟩
  rw [h0] at h
  simp only at h
  subst h
  obtain ⟨e0, w0, r0, l0⟩ := iterPair_retryWait iso options env 0 t0 e h0
  rcases h1 : iter iso options env 1 with ⟨t1, out1⟩
  unfold lockBody
  rw [h0, h1]
  cases out1 with
  | earlyReturn c =>
    obtain ⟨e1, w1, r1, l1⟩ := iterPair_earlyReturn iso options env 1 t1 c h1
    refine ⟨?_, ?_, fun e2 h2 => ?_⟩
    · simp only [countWait_append]; omega
    · simp only [countExchange_append]; omega
    · exact IterOut.noConfusion h2
  | gotCreds c =>
    obtain ⟨e1, w1, r1, l1⟩ := iterPair_gotCreds iso options env 1 t1 c h1
    refine ⟨?_, ?_, fun e2 h2 => ?_⟩
    · simp only [countWait_append, countWait]; omega
    · simp only [countExchange_append, countExchange]; omega
    · exact IterOut.noConfusion h2
  | thrownCache e1 =>
    obtain ⟨ex1, w1, r1, l1⟩ := iterPair_thrownCache iso options env 1 t1 e1 h1
    refine ⟨?_, ?_, fun e2 h2 => ?_⟩
    · simp only [countWait_append]; omega
    · simp only [countExchange_append]; omega
    · exact IterOut.noConfusion h2
  | thrownResolve e1 =>
    obtain ⟨ex1, w1, r1⟩ := iterPair_thrownResolve iso options env 1 t1 e1 h1
    refine ⟨?_, ?_, fun e2 h2 => ?_⟩
    · simp only [countWait_append]; omega
    · simp only [countExchange_append]; omega
    · exact IterOut.noConfusion h2
  | thrownExchange e1 =>
    obtain ⟨ex1, w1, r1, l1⟩ :=
      iterPair_thrownExchange iso options env 1 t1 e1 h1
    refine ⟨?_, ?_, fun e2 h2 => ?_⟩
    · simp only [countWait_append]; omega
    · simp only [countExchange_append]; omega
    · have h2x : IterOut.thrownExchange e1 = IterOut.thrownExchange e2 := h2
      have he : e1 = e2 := by injection h2x
      subst he
      refine ⟨rfl, ?_, ?_⟩
      · simp only [countExchange_append]; omega
      · simp only [countResolve_append]; omega
  | retryWait e1 =>
    exact absurd (iter_retryWait_inv iso options env 1 e1 (by rw [h1])).2
      (by omega)

/-- The locked body never records more than two exchange attempts. -/
theorem lockBody_exchange_le_two (iso : IsoCodec) (options : Options)
    (env : Env) : countExchange (lockBody iso options env).1 ≤ 2 := by
  rcases h0 : iter iso options env 0 with ⟨t0, out0⟩
  rcases h1 : iter iso options env 1 with ⟨t1, out1⟩
  have b0 : countExchange t0 ≤ 1 := by
    cases out0 with
    | earlyReturn c => have := iterPair_earlyReturn iso options env 0 t0 c h0; omega
    | gotCreds c => have := iterPair_gotCreds iso options env 0 t0 c h0; omega
    | thrownCache e => have := iterPair_thrownCache iso options env 0 t0 e h0; omega
    | thrownResolve e => have := iterPair_thrownResolve iso options env 0 t0 e h0; omega
    | thrownExchange e => have := iterPair_thrownExchange iso options env 0 t0 e h0; omega
    | retryWait e => have := iterPair_retryWait iso options env 0 t0 e h0; omega
  have b1 : countExchange t1 ≤ 1 := by
    cases out1 with
    | earlyReturn c => have := iterPair_earlyReturn iso options env 1 t1 c h1; omega
    | gotCreds c => have := iterPair_gotCreds iso options env 1 t1 c h1; omega
    | thrownCache e => have := iterPair_thrownCache iso options env 1 t1 e h1; omega
    | thrownResolve e => have := iterPair_thrownResolve iso options env 1 t1 e h1; omega
    | thrownExchange e => have := iterPair_thrownExchange iso options env 1 t1 e h1; omega
    | retryWait e => have := iterPair_retryWait iso options env 1 t1 e h1; omega
  unfold lockBody
  rw [h0, h1]
  cases out0 <;> cases out1 <;>
    simp only [countExchange_append, countExchange] <;> omega

/-- Digits of a natural number, most significant first (`fuel` bounds the
recursion; 20 covers every value used below). -/
def natToDigitsAux : Nat → Nat → List Char → List Char
  | 0, _, acc => acc
  | fuel + 1, n, acc =>
    let d := Char.ofNat (48 + n % 10)
    if n < 10 then d :: acc
    else natToDigitsAux fuel (n / 10) (d :: acc)

/-- Parse a digit string back to a natural number. -/
def decDigitsAux : List Char → Nat → Option Nat
  | [], acc => some acc
  | c :: rest, acc =>
    if 48 ≤ c.toNat ∧ c.toNat ≤ 57 then
      decDigitsAux rest (acc * 10 + (c.toNat - 48))
    else none

/-- Decimal rendering of an integer. -/
def encodeDecimal (t : Int) : String :=
  match t with
  | .ofNat n => String.mk (natToDigitsAux 20 n [])
  | .negSucc m => String.mk ('-' :: natToDigitsAux 20 (m + 1) [])

/-- Decimal parsing of an integer. -/
def decodeDecimal (s : String) : Option Int :=
  match s.data with
  | [] => none
  | '-' :: rest =>
    match rest with
    | [] => none
    | _ => (decDigitsAux rest 0).map (fun n => -(n : Int))
  | l => (decDigitsAux l 0).map (fun n => (n : Int))

/-- A concrete timestamp codec used to instantiate the abstract external
`Date` serialization pair in witnesses (a plain decimal rendering; the real
runtime uses ISO-8601 text, which the program never inspects itself). -/
def numCodec : IsoCodec := ⟨encodeDecimal, decodeDecimal⟩

/-- Fixture for exercising the retry policy: a 1Password item with the two
base fields and no MFA pair. -/
def fieldsC1 : OpFields := fun label =>
  if label = "access key id" then some { type := "STRING", value := some "AKIA1" }
  else if label = "secret access key" then
    some { type := "CONCEALED", value := some "sec1" }
  else none

/-- An upstream STS failure that is not the invalid-MFA classification. -/
def stsErrC1 : JsError :=
  { isSTSServiceException := true, Code := some "ServiceFailure",
    message := some "boom" }

def optsC1 : Options := { opItem := "item" }

/-- Environment whose cache file is absent and whose STS endpoint always
fails with `stsErrC1`. -/
def envC1 : Env :=
  { tmp := "/tmp"
  , now := fun _ => 1700000000000
  , cacheFileAt := fun _ => CacheFile.err { code := some "ENOENT" }
  , opItemAt := fun _ => .ok fieldsC1
  , stsCall := fun _ _ => .error stsErrC1 }

/-- C1: for every invocation, the orchestrator never attempts more than two
exchanges; when the first exchange attempt fails with a classification other
than invalid-MFA, the failure is immediately fatal with that error, after
exactly one exchange and no wait; when it fails with the invalid-MFA
classification, exactly one wait-and-retry cycle is performed, and if the
second exchange attempt also fails the invocation is fatal with the second
error after exactly two exchanges and two resolutions — a third exchange
never happens. -/
theorem claim_c1 (iso : IsoCodec) (options : Options) (env : Env) :
    countExchange (generateCredentials iso options env).1 ≤ 2
    ∧ (∀ e, firstExchangeFailsWith iso options env e →
        isInvalidMfaError e = false →
          (generateCredentials iso options env).2 = .error e
          ∧ countExchange (generateCredentials iso options env).1 = 1
          ∧ countWait (generateCredentials iso options env).1 = 0)
    ∧ (∀ e, firstExchangeFailsWith iso options env e →
        isInvalidMfaError e = true →
          countWait (generateCredentials iso options env).1 = 1
          ∧ (∀ e2, secondExchangeFailsWith iso options env e2 →
              (generateCredentials iso options env).2 = .error e2
              ∧ countExchange (generateCredentials iso options env).1 = 2
              ∧ countResolve (generateCredentials iso options env).1 = 2)) := by
  obtain ⟨hres, hex, hw, hr, hcw, hcr⟩ := gen_vs_lockBody iso options env
  refine ⟨?_, ?_, ?_⟩
  · rw [hex]
    exact lockBody_exchange_le_two iso options env
  · intro e hf hm
    rcases hf with h | h
    · obtain ⟨p1, p2, p3⟩ := lockBody_first_thrownExchange iso options env e h
      rw [hres, hex, hw]
      exact ⟨p1, p2, p3⟩
    · exact absurd (iter_retryWait_inv iso options env 0 e h).1 (by rw [hm]; simp)
  · intro e hf hm
    rcases hf with h | h
    · exact absurd (iter_thrownExchange_zero_inv iso options env e h)
        (by rw [hm]; simp)
    · obtain ⟨p1, p2, p3⟩ := lockBody_retry iso options env e h
      rw [hres, hex, hw, hr]
      exact ⟨p1, fun e2 h2 => p3 e2 h2⟩

/-- Witness for C1 at a concrete environment: the first exchange fails with a
non-MFA classification, and the invocation is fatal with that error after one
exchange and no wait. -/
theorem claim_c1_witness :
    firstExchangeFailsWith numCodec optsC1 envC1 stsErrC1
    ∧ isInvalidMfaError stsErrC1 = false
    ∧ (generateCredentials numCodec optsC1 envC1).2 = .error stsErrC1
    ∧ countExchange (generateCredentials numCodec optsC1 envC1).1 = 1
    ∧ countWait (generateCredentials numCodec optsC1 envC1).1 = 0 := by
  have h := (claim_c1 numCodec optsC1 envC1).2.1 stsErrC1 (Or.inl rfl) rfl
  exact ⟨Or.inl rfl, rfl, h.1, h.2.1, h.2.2⟩

/-- Fixture credentials whose expiration is the probe instant used below. -/
def credsC2 : Credentials :=
  ⟨"AKIA2", "sec2", "tok2", 1700000000000⟩

/-- C2 (amended): for every cached credential record that parses and
validates structurally, the cache read returns absent exactly when the
record's expiration is strictly before the current time; a record whose
expiration equals (or exceeds) the current instant is returned to the caller
— the comparison in the code is `Expiration.getTime() < Date.now()`, so the
boundary instant is not treated as expired. -/
theorem claim_c2 (iso : IsoCodec) (j : Json) (c : Credentials) (nowMs : Int)
    (hp : zodCachedCredsParse iso j = some c) :
    (c.Expiration < nowMs →
      (getCachedSessionCredentials iso (.data (some j)) nowMs).2 = .ok none)
    ∧ (nowMs ≤ c.Expiration →
      (getCachedSessionCredentials iso (.data (some j)) nowMs).2
        = .ok (some c)) := by
  constructor
  · intro hlt
    simp only [getCachedSessionCredentials, hp, if_pos hlt]
  · intro hge
    simp only [getCachedSessionCredentials, hp]
    rw [if_neg (by omega)]

/-- Counterexample to C2 as stated: a structurally valid cached record whose
expiration equals the current instant is returned by the read, not treated
as expired. -/
theorem claim_c2_counterexample :
    zodCachedCredsParse numCodec (credsToJson numCodec credsC2) = some credsC2
    ∧ credsC2.Expiration = 1700000000000
    ∧ (getCachedSessionCredentials numCodec
        (.data (some (credsToJson numCodec credsC2))) 1700000000000).2
        = .ok (some credsC2) :=
  ⟨rfl, rfl, rfl⟩

/-- Witness for the amended C2: one millisecond past the expiration the same
record is reported absent. -/
theorem claim_c2_witness :
    zodCachedCredsParse numCodec (credsToJson numCodec credsC2) = some credsC2
    ∧ credsC2.Expiration < 1700000000001
    ∧ (getCachedSessionCredentials numCodec
        (.data (some (credsToJson numCodec credsC2))) 1700000000001).2
        = .ok none := by
  have h := claim_c2 numCodec (credsToJson numCodec credsC2) credsC2
    1700000000001 rfl
  exact ⟨rfl, by decide, h.1 (by decide)⟩

/-- Fixture credentials for the cache round-trip. -/
def credsC8 : Credentials :=
  ⟨"AKIA8", "sec8", "tok8", 1700000000000⟩

/-- C8: cache round-trip — writing the credential record (the JSON document
produced by `JSON.stringify`) and immediately reading it back through the zod
schema returns a value equal to the original, all four fields included,
whenever the expiration is strictly in the future and the external date
serialization round-trips on the expiration instant. -/
theorem claim_c8 (iso : IsoCodec) (c : Credentials) (nowMs : Int)
    (hdec : iso.dec (iso.enc c.Expiration) = some c.Expiration)
    (hfut : nowMs < c.Expiration) :
    (getCachedSessionCredentials iso (.data (some (credsToJson iso c)))
      nowMs).2 = .ok (some c) := by
  have h0 : zodCachedCredsParse iso (credsToJson iso c)
      = (match iso.dec (iso.enc c.Expiration) with
         | some ms =>
           some ⟨c.AccessKeyId, c.SecretAccessKey, c.SessionToken, ms⟩
         | none => none) := rfl
  have hp : zodCachedCredsParse iso (credsToJson iso c) = some c := by
    rw [h0, hdec]
  simp only [getCachedSessionCredentials, hp]
  rw [if_neg (by omega)]

/-- Witness for C8 with the concrete decimal codec: the record written with
expiration 1700000000000 is read back unchanged one millisecond earlier. -/
theorem claim_c8_witness :
    numCodec.dec (numCodec.enc credsC8.Expiration) = some credsC8.Expiration
    ∧ (1699999999999 : Int) < credsC8.Expiration
    ∧ (getCachedSessionCredentials numCodec
        (.data (some (credsToJson numCodec credsC8))) 1699999999999).2
        = .ok (some credsC8) :=
  ⟨rfl, by decide, claim_c8 numCodec credsC8 1699999999999 rfl (by decide)⟩

/-- The five option fields that enter the cache key. -/
def keyTuple (options : Options) :
    Option String × Option String × String × Option String × Option String :=
  (options.opAccount, options.opVault, options.opItem,
   options.roleArn, options.roleSessionName)

/-- C3 (amended): the cache-key derivation is deterministic — two option
records agreeing on (account, vault, item, roleArn, roleSessionName) receive
the same cache file path regardless of their other fields.  It is however not
injective: the join separator "-" may occur inside field values and the
sanitizer maps every disallowed character to the same "-", so distinct
tuples can collide (see the counterexample). -/
theorem claim_c3 (tmp : String) (o1 o2 : Options)
    (h : keyTuple o1 = keyTuple o2) :
    getCacheFilename tmp o1 = getCacheFilename tmp o2 := by
  simp only [keyTuple, Prod.mk.injEq] at h
  obtain ⟨h1, h2, h3, h4, h5⟩ := h
  simp [getCacheFilename, h1, h2, h3, h4, h5]

/-- Counterexample to C3 as stated: two distinct option tuples — account
"a-b" with vault "c" versus account "a" with vault "b-c" — produce the same
cache filename, because the join separator also occurs inside the values. -/
theorem claim_c3_counterexample :
    keyTuple { opItem := "i", opAccount := some "a-b", opVault := some "c" }
      ≠ keyTuple { opItem := "i", opAccount := some "a", opVault := some "b-c" }
    ∧ getCacheFilename "/tmp"
        { opItem := "i", opAccount := some "a-b", opVault := some "c" }
      = getCacheFilename "/tmp"
        { opItem := "i", opAccount := some "a", opVault := some "b-c" } :=
  ⟨by decide, rfl⟩

/-- Witness for the amended C3: two option records with the same key tuple
but different `debug` flags map to the same cache file path. -/
theorem claim_c3_witness :
    keyTuple { opItem := "w3", debug := false }
      = keyTuple { opItem := "w3", debug := true }
    ∧ getCacheFilename "/tmp" { opItem := "w3", debug := false }
      = getCacheFilename "/tmp" { opItem := "w3", debug := true } :=
  ⟨rfl, claim_c3 "/tmp" { opItem := "w3", debug := false }
    { opItem := "w3", debug := true } rfl⟩

/-- Exactly one of the two MFA labels is present on the resolved item. -/
def mfaExactlyOne (fields : OpFields) : Prop :=
  ((fields "mfa serial").isSome ∧ fields "one-time password" = none)
  ∨ (fields "mfa serial" = none ∧ (fields "one-time password").isSome)

/-- C4: the MFA pair is all-or-nothing — a resolved item carrying exactly one
of the two MFA fields never parses, and the resolver throws its
invalid-schema error; conversely any accepted record has both MFA fields
present or both absent. -/
theorem claim_c4 (fields : OpFields) :
    (mfaExactlyOne fields →
      opSchemaParse fields = none
      ∧ (get1pAwsKeys (.ok fields)).2 = .error invalidSecretSchemaError)
    ∧ (∀ p, opSchemaParse fields = some p →
      ((fields "mfa serial").isSome ∧ (fields "one-time password").isSome)
      ∨ (fields "mfa serial" = none ∧ fields "one-time password" = none)) := by
  constructor
  · intro hx
    have hnone : opSchemaParse fields = none := by
      rcases hx with ⟨hs, ho⟩ | ⟨hs, ho⟩
      · obtain ⟨ms, hms⟩ := Option.isSome_iff_exists.mp hs
        unfold opSchemaParse
        rw [hms, ho]
        split <;> try rfl
        split <;> try rfl
        split <;> rfl
      · obtain ⟨otp, hotp⟩ := Option.isSome_iff_exists.mp ho
        unfold opSchemaParse
        rw [hs, hotp]
        split <;> try rfl
        split <;> try rfl
        split <;> rfl
    refine ⟨hnone, ?_⟩
    simp [get1pAwsKeys, hnone]
  · intro p hp
    unfold opSchemaParse at hp
    split at hp <;> try (exfalso; exact Option.noConfusion hp)
    split at hp <;> try (exfalso; exact Option.noConfusion hp)
    split at hp <;> try (exfalso; exact Option.noConfusion hp)
    split at hp <;> try (exfalso; exact Option.noConfusion hp)
    · split at hp <;> try (exfalso; exact Option.noConfusion hp)
      split at hp <;> try (exfalso; exact Option.noConfusion hp)
      refine Or.inl ⟨?_, ?_⟩ <;> simp_all
    · exact Or.inr ⟨by assumption, by assumption⟩

/-- Fixture: an item with the base fields and only the `mfa serial` half of
the MFA pair. -/
def fieldsC4 : OpFields := fun label =>
  if label = "access key id" then some { type := "STRING", value := some "AKIA4" }
  else if label = "secret access key" then
    some { type := "CONCEALED", value := some "sec4" }
  else if label = "mfa serial" then
    some { type := "STRING", value := some "arn:mfa" }
  else none

/-- Witness for C4: the half-MFA fixture is rejected with the schema error. -/
theorem claim_c4_witness :
    mfaExactlyOne fieldsC4
    ∧ opSchemaParse fieldsC4 = none
    ∧ (get1pAwsKeys (.ok fieldsC4)).2 = .error invalidSecretSchemaError := by
  have h := (claim_c4 fieldsC4).1 (Or.inl (by constructor <;> rfl))
  exact ⟨Or.inl (by constructor <;> rfl), h.1, h.2⟩

/-- C9: when `roleArn` is supplied and `roleSessionName` is omitted, the
role-assumption request carries a present session name equal to the fixed
prefix "temporary-session-" followed by the decimal rendering of the current
timestamp — never an absent name. -/
theorem claim_c9 (options : Options) (keys : AwsKeys) (nowMs : Int)
    (arn : String) (hr : options.roleArn = some arn)
    (hs : options.roleSessionName = none) :
    buildStsRequest options keys nowMs
      = .assumeRole keys.accessKeyId keys.secretAccessKey keys.mfaSerial
          keys.totp arn (some ("temporary-session-" ++ toString nowMs))
          options.duration := by
  simp [buildStsRequest, hr, hs]

/-- Witness for C9 at a concrete option record and key material. -/
theorem claim_c9_witness :
    buildStsRequest { opItem := "i9", roleArn := some "arn:aws:iam::1:role/r" }
        ⟨"AKIA9", "sec9", none, none⟩ 1700000000000
      = .assumeRole "AKIA9" "sec9" none none "arn:aws:iam::1:role/r"
          (some ("temporary-session-" ++ toString (1700000000000 : Int)))
          none :=
  claim_c9 { opItem := "i9", roleArn := some "arn:aws:iam::1:role/r" }
    ⟨"AKIA9", "sec9", none, none⟩ 1700000000000 "arn:aws:iam::1:role/r"
    rfl rfl

/-- A cache hit ends the iteration with an early return carrying the cached
credentials; the cache is consulted whenever caching is enabled. -/
theorem iter_cacheHit (iso : IsoCodec) (options : Options) (env : Env)
    (i : Nat) (c : Credentials)
    (h : (cacheStep iso options env i).2 = .ok (some c)) :
    iter iso options env i = ((cacheStep iso options env i).1, .earlyReturn c) := by
  rcases hcs : cacheStep iso options env i with ⟨evs, r⟩
  rw [hcs] at h
  simp only at h
  subst h
  unfold iter
  rw [hcs]

/-- A throwing cache step ends the iteration with that error. -/
theorem iter_cacheThrow (iso : IsoCodec) (options : Options) (env : Env)
    (i : Nat) (e : JsError)
    (h : (cacheStep iso options env i).2 = .error e) :
    iter iso options env i = ((cacheStep iso options env i).1, .thrownCache e) := by
  rcases hcs : cacheStep iso options env i with ⟨evs, r⟩
  rw [hcs] at h
  simp only at h
  subst h
  unfold iter
  rw [hcs]

/-- Fixture: a cache-read failure that is not file-not-found (for example a
permission error). -/
def eaccesC5 : JsError := { code := some "EACCES" }

def optsC5 : Options := { opItem := "item5" }

/-- Environment whose cache file read always fails with `eaccesC5`. -/
def envC5 : Env :=
  { tmp := "/tmp"
  , now := fun _ => 1700000000000
  , cacheFileAt := fun _ => CacheFile.err eaccesC5
  , opItemAt := fun _ => .ok fieldsC1
  , stsCall := fun _ _ => .ok none }

/-- C5 (amended): the cache-read layer recovers locally as a miss for a
missing file (debug log only), for unparseable content and for
schema-invalid content (warning log), and none of these block the
resolve-and-exchange flow; however a cache-file read error other than
file-not-found is re-thrown and becomes a fatal failure of the invocation. -/
theorem claim_c5 (iso : IsoCodec) (nowMs : Int) :
    (∀ e, isFileNotFoundError e = true →
      getCachedSessionCredentials iso (.err e) nowMs
        = ([.log .dbg "No cached credentials found."], .ok none))
    ∧ (getCachedSessionCredentials iso (.data none) nowMs
        = ([.log .dbg "Found cached credentials",
            .log .warn "Invalid cached credentials."], .ok none))
    ∧ (∀ j, zodCachedCredsParse iso j = none →
      getCachedSessionCredentials iso (.data (some j)) nowMs
        = ([.log .dbg "Found cached credentials",
            .log .warn "Invalid cached credentials."], .ok none))
    ∧ (∀ e, isFileNotFoundError e = false →
      getCachedSessionCredentials iso (.err e) nowMs = ([], .error e))
    ∧ (∀ options env e, options.cache = true →
      env.cacheFileAt 0 = CacheFile.err e →
      isFileNotFoundError e = false →
      (generateCredentials iso options env).2 = .error e) := by
  refine ⟨?_, ?_, ?_, ?_, ?_⟩
  · intro e he
    simp only [getCachedSessionCredentials]
    rw [if_pos he]
  · rfl
  · intro j hj
    simp only [getCachedSessionCredentials, hj]
  · intro e he
    simp only [getCachedSessionCredentials]
    rw [if_neg (by simp [he])]
  · intro options env e hc hfile hnf
    have hread : getCachedSessionCredentials iso (env.cacheFileAt 0)
        (env.now 0) = ([], .error e) := by
      rw [hfile]
      simp only [getCachedSessionCredentials]
      rw [if_neg (by simp [hnf])]
    have hcs : (cacheStep iso options env 0).2 = .error e := by
      simp [cacheStep, hc, hread]
    have hiter := iter_cacheThrow iso options env 0 e hcs
    have hlb : (lockBody iso options env).2 = .error e := by
      unfold lockBody
      rw [hiter]
    rw [(gen_vs_lockBody iso options env).1, hlb]

/-- Counterexample to C5 as stated: with caching enabled and a cache file
whose read fails with a permission error, the whole invocation fails with
exactly that cache-layer error. -/
theorem claim_c5_counterexample :
    isFileNotFoundError eaccesC5 = false
    ∧ envC5.cacheFileAt 0 = CacheFile.err eaccesC5
    ∧ optsC5.cache = true
    ∧ (generateCredentials numCodec optsC5 envC5).2 = .error eaccesC5 :=
  ⟨rfl, rfl, rfl, rfl⟩

/-- Witness for the amended C5 at concrete inputs: a missing file and an
unparseable file both recover as misses, and a permission error propagates. -/
theorem claim_c5_witness :
    isFileNotFoundError { code := some "ENOENT" } = true
    ∧ getCachedSessionCredentials numCodec
        (.err { code := some "ENOENT" }) 1700000000000
        = ([.log .dbg "No cached credentials found."], .ok none)
    ∧ zodCachedCredsParse numCodec Json.null = none
    ∧ getCachedSessionCredentials numCodec (.data (some Json.null))
        1700000000000
        = ([.log .dbg "Found cached credentials",
            .log .warn "Invalid cached credentials."], .ok none)
    ∧ isFileNotFoundError eaccesC5 = false
    ∧ getCachedSessionCredentials numCodec (.err eaccesC5) 1700000000000
        = ([], .error eaccesC5) := by
  have h := claim_c5 numCodec 1700000000000
  exact ⟨rfl, h.1 _ rfl, rfl, h.2.2.1 _ rfl, rfl, h.2.2.2.1 _ rfl⟩

/-- With caching enabled, a successful cache read surfaces unchanged as the
cache-step result. -/
theorem cacheStep_hit (iso : IsoCodec) (options : Options) (env : Env)
    (i : Nat) (c : Credentials) (hc : options.cache = true)
    (h : (getCachedSessionCredentials iso (env.cacheFileAt i)
      (env.now i)).2 = .ok (some c)) :
    (cacheStep iso options env i).2 = .ok (some c) := by
  simp [cacheStep, hc, h]

/-- C10: when the first exchange attempt fails with the invalid-MFA
classification and caching is enabled, the second iteration re-reads the
cache first; if a valid unexpired record is found there, the second
resolve/exchange is skipped entirely (one resolution and one exchange in the
whole run, two cache reads, no cache write) and the cached credentials are
the result of the invocation. -/
theorem claim_c10 (iso : IsoCodec) (options : Options) (env : Env)
    (e : JsError) (c : Credentials)
    (hcache : options.cache = true)
    (h0 : (iter iso options env 0).2 = .retryWait e)
    (h1 : (getCachedSessionCredentials iso (env.cacheFileAt 1)
      (env.now 1)).2 = .ok (some c)) :
    (generateCredentials iso options env).2 = .ok c
    ∧ countExchange (generateCredentials iso options env).1 = 1
    ∧ countResolve (generateCredentials iso options env).1 = 1
    ∧ countCacheRead (generateCredentials iso options env).1 = 2
    ∧ countCacheWrite (generateCredentials iso options env).1 = 0 := by
  obtain ⟨hres, hex, hw, hr, hcw, hcr⟩ := gen_vs_lockBody iso options env
  have hcs1 : (cacheStep iso options env 1).2 = .ok (some c) :=
    cacheStep_hit iso options env 1 c hcache h1
  have hiter1 := iter_cacheHit iso options env 1 c hcs1
  rcases hp0 : iter iso options env 0 with ⟨t0, out0⟩
  rw [hp0] at h0
  simp only at h0
  subst h0
  obtain ⟨e0, w0, r0, l0⟩ := iterPair_retryWait iso options env 0 t0 e hp0
  obtain ⟨cw0, so0, cr0⟩ := iterPair_base iso options env 0 t0 _ hp0
  obtain ⟨e1, w1, r1, l1⟩ := iterPair_earlyReturn iso options env 1
    (cacheStep iso options env 1).1 c hiter1
  obtain ⟨cw1, so1, cr1⟩ := iterPair_base iso options env 1 _ _ hiter1
  simp only [hcache, if_true] at cr0 cr1
  have hlb : lockBody iso options env
      = (t0 ++ (cacheStep iso options env 1).1, .ok c) := by
    unfold lockBody
    rw [hp0, hiter1]
  refine ⟨?_, ?_, ?_, ?_, ?_⟩
  · rw [hres, hlb]
  · rw [hex, hlb]
    simp only [countExchange_append]
    omega
  · rw [hr, hlb]
    simp only [countResolve_append]
    omega
  · rw [hcr, hlb]
    simp only [countCacheRead_append]
    omega
  · rw [hcw, hlb]
    simp only [countCacheWrite_append]
    omega

/-- The classified invalid-MFA error value. -/
def mfaErrC10 : JsError :=
  { isSTSServiceException := true, Code := some "AccessDenied",
    message := some invalidMfaMessage }

def credsC10 : Credentials :=
  ⟨"AKIA10", "sec10", "tok10", 1700000001000⟩

def optsC10 : Options := { opItem := "item10" }

/-- Environment for the C10 witness: cache miss then a valid cached record
appearing before the second read (as a concurrent writer would leave), with
an STS endpoint that always rejects the one-time code. -/
def envC10 : Env :=
  { tmp := "/tmp"
  , now := fun _ => 1700000000000
  , cacheFileAt := fun i =>
      if i = 0 then CacheFile.err { code := some "ENOENT" }
      else CacheFile.data (some (credsToJson numCodec credsC10))
  , opItemAt := fun _ => .ok fieldsC1
  , stsCall := fun _ _ => .error mfaErrC10 }

/-- Witness for C10 at the concrete environment. -/
theorem claim_c10_witness :
    optsC10.cache = true
    ∧ (iter numCodec optsC10 envC10 0).2 = .retryWait mfaErrC10
    ∧ (getCachedSessionCredentials numCodec (envC10.cacheFileAt 1)
        (envC10.now 1)).2 = .ok (some credsC10)
    ∧ (generateCredentials numCodec optsC10 envC10).2 = .ok credsC10
    ∧ countExchange (generateCredentials numCodec optsC10 envC10).1 = 1
    ∧ countResolve (generateCredentials numCodec optsC10 envC10).1 = 1 := by
  have h := claim_c10 numCodec optsC10 envC10 mfaErrC10 credsC10 rfl rfl rfl
  exact ⟨rfl, rfl, rfl, h.1, h.2.1, h.2.2.1⟩

/-- The run succeeded through the cache-hit fast path (on either loop
iteration). -/
def hitSuccess (iso : IsoCodec) (options : Options) (env : Env) : Prop :=
  (∃ c, (iter iso options env 0).2 = .earlyReturn c)
  ∨ (∃ e c, (iter iso options env 0).2 = .retryWait e
      ∧ (iter iso options env 1).2 = .earlyReturn c)

/-- The run succeeded through a fresh exchange (on either loop iteration). -/
def freshSuccess (iso : IsoCodec) (options : Options) (env : Env) : Prop :=
  (∃ c, (iter iso options env 0).2 = .gotCreds c)
  ∨ (∃ e c, (iter iso options env 0).2 = .retryWait e
      ∧ (iter iso options env 1).2 = .gotCreds c)

/-- Shape of the locked body on success: a cache hit returns without any
cache write, while a fresh exchange appends exactly one cache write of the
resulting record (at the derived cache path) as its last action. -/
theorem lockBody_ok_shape (iso : IsoCodec) (options : Options) (env : Env)
    (c : Credentials) (h : (lockBody iso options env).2 = .ok c) :
    (hitSuccess iso options env
      ∧ countCacheWrite (lockBody iso options env).1 = 0)
    ∨ (freshSuccess iso options env
      ∧ ∃ t, (lockBody iso options env).1
          = t ++ [.cacheWrite (getCacheFilename env.tmp options)
                   (credsToJson iso c)]) := by
  rcases h0 : iter iso options env 0 with ⟨t0, out0⟩
  cases out0 with
  | earlyReturn c0 =>
    have hlb : lockBody iso options env = (t0, .ok c0) := by
      unfold lockBody
      rw [h0]
    rw [hlb] at h
    simp only at h
    have hc : c0 = c := by injection h
    subst hc
    obtain ⟨cw0, _, _⟩ := iterPair_base iso options env 0 t0 _ h0
    rw [hlb]
    exact Or.inl ⟨Or.inl ⟨c0, by rw [h0]⟩, cw0⟩
  | gotCreds c0 =>
    have hlb : lockBody iso options env
        = (t0 ++ [.cacheWrite (getCacheFilename env.tmp options)
            (credsToJson iso c0)], .ok c0) := by
      unfold lockBody
      rw [h0]
    rw [hlb] at h
    simp only at h
    have hc : c0 = c := by injection h
    subst hc
    rw [hlb]
    exact Or.inr ⟨Or.inl ⟨c0, by rw [h0]⟩, ⟨t0, rfl⟩⟩
  | thrownCache e =>
    have hlb : lockBody iso options env = (t0, .error e) := by
      unfold lockBody
      rw [h0]
    rw [hlb] at h
    exact absurd h (by simp)
  | thrownResolve e =>
    have hlb : lockBody iso options env = (t0, .error e) := by
      unfold lockBody
      rw [h0]
    rw [hlb] at h
    exact absurd h (by simp)
  | thrownExchange e =>
    have hlb : lockBody iso options env = (t0, .error e) := by
      unfold lockBody
      rw [h0]
    rw [hlb] at h
    exact absurd h (by simp)
  | retryWait e =>
    obtain ⟨cw0, _, _⟩ := iterPair_base iso options env 0 t0 _ h0
    rcases h1 : iter iso options env 1 with ⟨t1, out1⟩
    cases out1 with
    | earlyReturn c1 =>
      have hlb : lockBody iso options env = (t0 ++ t1, .ok c1) := by
        unfold lockBody
        rw [h0, h1]
      rw [hlb] at h
      simp only at h
      have hc : c1 = c := by injection h
      subst hc
      obtain ⟨cw1, _, _⟩ := iterPair_base iso options env 1 t1 _ h1
      rw [hlb]
      refine Or.inl ⟨Or.inr ⟨e, c1, by rw [h0], by rw [h1]⟩, ?_⟩
      simp only [countCacheWrite_append]
      omega
    | gotCreds c1 =>
      have hlb : lockBody iso options env
          = (t0 ++ t1 ++ [.cacheWrite (getCacheFilename env.tmp options)
              (credsToJson iso c1)], .ok c1) := by
        unfold lockBody
        rw [h0, h1]
      rw [hlb] at h
      simp only at h
      have hc : c1 = c := by injection h
      subst hc
      rw [hlb]
      exact Or.inr ⟨Or.inr ⟨e, c1, by rw [h0], by rw [h1]⟩, ⟨t0 ++ t1, rfl⟩⟩
    | thrownCache e1 =>
      have hlb : lockBody iso options env = (t0 ++ t1, .error e1) := by
        unfold lockBody
        rw [h0, h1]
      rw [hlb] at h
      exact absurd h (by simp)
    | thrownResolve e1 =>
      have hlb : lockBody iso options env = (t0 ++ t1, .error e1) := by
        unfold lockBody
        rw [h0, h1]
      rw [hlb] at h
      exact absurd h (by simp)
    | thrownExchange e1 =>
      have hlb : lockBody iso options env = (t0 ++ t1, .error e1) := by
        unfold lockBody
        rw [h0, h1]
      rw [hlb] at h
      exact absurd h (by simp)
    | retryWait e1 =>
      exact absurd (iter_retryWait_inv iso options env 1 e1 (by rw [h1])).2
        (by omega)

/-- C6 (amended): on every overall success, either the run went through a
fresh exchange — then the resulting credentials are persisted by exactly one
cache write placed immediately before the lock release, which precedes the
stdout emission — or the run took the cache-hit fast path and the cache is
not written at all (the early return skips the write). -/
theorem claim_c6 (iso : IsoCodec) (options : Options) (env : Env)
    (c : Credentials) (h : (generateCredentials iso options env).2 = .ok c) :
    (freshSuccess iso options env
      ∧ ∃ t, (generateCredentials iso options env).1
          = t ++ [.cacheWrite (getCacheFilename env.tmp options)
                   (credsToJson iso c),
                  .lockRelease, .stdoutJson (outputJson iso c)])
    ∨ (hitSuccess iso options env
      ∧ countCacheWrite (generateCredentials iso options env).1 = 0
      ∧ ∃ t, (generateCredentials iso options env).1
          = t ++ [.lockRelease, .stdoutJson (outputJson iso c)]) := by
  obtain ⟨hres, _, _, _, hcw, _⟩ := gen_vs_lockBody iso options env
  have hb : (lockBody iso options env).2 = .ok c := by rw [← hres, h]
  rcases hlbp : lockBody iso options env with ⟨bt, br⟩
  rw [hlbp] at hb
  simp only at hb
  subst hb
  have hgen : generateCredentials iso options env
      = ([.log .info "Generating credentials", .log .dbg "Jittering",
          .lockAcquire, .log .dbg "Lock acquired"] ++ bt
          ++ [.lockRelease, .stdoutJson (outputJson iso c)], .ok c) := by
    unfold generateCredentials
    rw [hlbp]
  rcases lockBody_ok_shape iso options env c (by rw [hlbp]) with
    ⟨hhit, hwz⟩ | ⟨hfresh, t, ht⟩
  · refine Or.inr ⟨hhit, ?_, ?_⟩
    · rw [hcw, hlbp]
      rw [hlbp] at hwz
      exact hwz
    · refine ⟨[.log .info "Generating credentials", .log .dbg "Jittering",
        .lockAcquire, .log .dbg "Lock acquired"] ++ bt, ?_⟩
      rw [hgen]
  · refine Or.inl ⟨hfresh, ?_⟩
    rw [hlbp] at ht
    simp only at ht
    refine ⟨[.log .info "Generating credentials", .log .dbg "Jittering",
      .lockAcquire, .log .dbg "Lock acquired"] ++ t, ?_⟩
    rw [hgen, ht]
    simp [List.append_assoc]

def credsC6 : Credentials :=
  ⟨"AKIA6", "sec6", "tok6", 1700000002000⟩

def optsC6 : Options := { opItem := "item6" }

/-- Environment for the C6 counterexample: a valid unexpired cache record is
present from the start. -/
def envC6 : Env :=
  { tmp := "/tmp"
  , now := fun _ => 1700000000000
  , cacheFileAt := fun _ => CacheFile.data (some (credsToJson numCodec credsC6))
  , opItemAt := fun _ => .ok fieldsC1
  , stsCall := fun _ _ => .ok none }

/-- Counterexample to C6 as stated: a successful invocation that reuses the
cached credentials performs no cache write at all. -/
theorem claim_c6_counterexample :
    (generateCredentials numCodec optsC6 envC6).2 = .ok credsC6
    ∧ countCacheWrite (generateCredentials numCodec optsC6 envC6).1 = 0 :=
  ⟨rfl, rfl⟩

def optsC6f : Options := { opItem := "item6", cache := false }

/-- Environment for the C6 witness: no caching, one successful exchange. -/
def envC6f : Env :=
  { tmp := "/tmp"
  , now := fun _ => 1700000000000
  , cacheFileAt := fun _ => CacheFile.err { code := some "ENOENT" }
  , opItemAt := fun _ => .ok fieldsC1
  , stsCall := fun _ _ => .ok (some credsC6) }

/-- Witness for the amended C6: a fresh-exchange success ends with the cache
write followed by the lock release and the stdout emission. -/
theorem claim_c6_witness :
    (generateCredentials numCodec optsC6f envC6f).2 = .ok credsC6
    ∧ ((freshSuccess numCodec optsC6f envC6f
        ∧ ∃ t, (generateCredentials numCodec optsC6f envC6f).1
            = t ++ [.cacheWrite (getCacheFilename envC6f.tmp optsC6f)
                     (credsToJson numCodec credsC6),
                    .lockRelease, .stdoutJson (outputJson numCodec credsC6)])
      ∨ (hitSuccess numCodec optsC6f envC6f
        ∧ countCacheWrite (generateCredentials numCodec optsC6f envC6f).1 = 0
        ∧ ∃ t, (generateCredentials numCodec optsC6f envC6f).1
            = t ++ [.lockRelease, .stdoutJson (outputJson numCodec credsC6)])) :=
  ⟨rfl, claim_c6 numCodec optsC6f envC6f credsC6 rfl⟩

theorem stdoutOf_append (options : Options) (a b : List Ev) :
    stdoutOf options (a ++ b) = stdoutOf options a ++ stdoutOf options b := by
  simp [stdoutOf]

/-- Without `--debug` the console transport sits at level error, so a trace
containing neither error-level log records nor stdout emissions contributes
nothing to stdout. -/
theorem stdoutOf_silent (options : Options) (hdbg : options.debug = false) :
    ∀ t : List Ev, countErrLog t = 0 → countStdout t = 0 →
      stdoutOf options t = [] := by
  intro t
  induction t with
  | nil => intro _ _; rfl
  | cons hd tl ih =>
    intro he hs
    have step : ∀ (hnone : stdoutItem options hd = none),
        stdoutOf options (hd :: tl) = stdoutOf options tl := by
      intro hnone
      simp [stdoutOf, List.filterMap_cons, hnone]
    cases hd with
    | log lvl msg =>
      cases lvl with
      | error => simp [countErrLog] at he
      | warn =>
        rw [step (by simp [stdoutItem, hdbg, levelNum])]
        exact ih (by simpa [countErrLog] using he)
          (by simpa [countStdout] using hs)
      | info =>
        rw [step (by simp [stdoutItem, hdbg, levelNum])]
        exact ih (by simpa [countErrLog] using he)
          (by simpa [countStdout] using hs)
      | dbg =>
        rw [step (by simp [stdoutItem, hdbg, levelNum])]
        exact ih (by simpa [countErrLog] using he)
          (by simpa [countStdout] using hs)
    | cacheRead i hit =>
      rw [step rfl]
      exact ih (by simpa [countErrLog] using he) (by simpa [countStdout] using hs)
    | resolve i =>
      rw [step rfl]
      exact ih (by simpa [countErrLog] using he) (by simpa [countStdout] using hs)
    | exchange i ok =>
      rw [step rfl]
      exact ih (by simpa [countErrLog] using he) (by simpa [countStdout] using hs)
    | wait s =>
      rw [step rfl]
      exact ih (by simpa [countErrLog] using he) (by simpa [countStdout] using hs)
    | cacheWrite f d =>
      rw [step rfl]
      exact ih (by simpa [countErrLog] using he) (by simpa [countStdout] using hs)
    | lockAcquire =>
      rw [step rfl]
      exact ih (by simpa [countErrLog] using he) (by simpa [countStdout] using hs)
    | lockRelease =>
      rw [step rfl]
      exact ih (by simpa [countErrLog] using he) (by simpa [countStdout] using hs)
    | stdoutJson j => simp [countStdout] at hs

/-- A successful locked body records no error-level log and no stdout
emission (those appear only on throwing paths and in the wrapper). -/
theorem lockBody_ok_silent (iso : IsoCodec) (options : Options) (env : Env)
    (c : Credentials) (h : (lockBody iso options env).2 = .ok c) :
    countErrLog (lockBody iso options env).1 = 0
    ∧ countStdout (lockBody iso options env).1 = 0 := by
  rcases h0 : iter iso options env 0 with ⟨t0, out0⟩
  cases out0 with
  | earlyReturn c0 =>
    obtain ⟨_, so0, _⟩ := iterPair_base iso options env 0 t0 _ h0
    obtain ⟨_, _, _, l0⟩ := iterPair_earlyReturn iso options env 0 t0 c0 h0
    have hlb : lockBody iso options env = (t0, .ok c0) := by
      unfold lockBody
      rw [h0]
    rw [hlb]
    exact ⟨l0, so0⟩
  | gotCreds c0 =>
    obtain ⟨_, so0, _⟩ := iterPair_base iso options env 0 t0 _ h0
    obtain ⟨_, _, _, l0⟩ := iterPair_gotCreds iso options env 0 t0 c0 h0
    have hlb : lockBody iso options env
        = (t0 ++ [.cacheWrite (getCacheFilename env.tmp options)
            (credsToJson iso c0)], .ok c0) := by
      unfold lockBody
      rw [h0]
    rw [hlb]
    constructor
    · simp only [countErrLog_append, l0, countErrLog]
    · simp only [countStdout_append, so0, countStdout]
  | thrownCache e =>
    have hlb : lockBody iso options env = (t0, .error e) := by
      unfold lockBody
      rw [h0]
    rw [hlb] at h
    exact absurd h (by simp)
  | thrownResolve e =>
    have hlb : lockBody iso options env = (t0, .error e) := by
      unfold lockBody
      rw [h0]
    rw [hlb] at h
    exact absurd h (by simp)
  | thrownExchange e =>
    have hlb : lockBody iso options env = (t0, .error e) := by
      unfold lockBody
      rw [h0]
    rw [hlb] at h
    exact absurd h (by simp)
  | retryWait e =>
    obtain ⟨_, so0, _⟩ := iterPair_base iso options env 0 t0 _ h0
    obtain ⟨_, _, _, l0⟩ := iterPair_retryWait iso options env 0 t0 e h0
    rcases h1 : iter iso options env 1 with ⟨t1, out1⟩
    cases out1 with
    | earlyReturn c1 =>
      obtain ⟨_, so1, _⟩ := iterPair_base iso options env 1 t1 _ h1
      obtain ⟨_, _, _, l1⟩ := iterPair_earlyReturn iso options env 1 t1 c1 h1
      have hlb : lockBody iso options env = (t0 ++ t1, .ok c1) := by
        unfold lockBody
        rw [h0, h1]
      rw [hlb]
      constructor
      · simp only [countErrLog_append, l0, l1]
      · simp only [countStdout_append, so0, so1]
    | gotCreds c1 =>
      obtain ⟨_, so1, _⟩ := iterPair_base iso options env 1 t1 _ h1
      obtain ⟨_, _, _, l1⟩ := iterPair_gotCreds iso options env 1 t1 c1 h1
      have hlb : lockBody iso options env
          = (t0 ++ t1 ++ [.cacheWrite (getCacheFilename env.tmp options)
              (credsToJson iso c1)], .ok c1) := by
        unfold lockBody
        rw [h0, h1]
      rw [hlb]
      constructor
      · simp only [countErrLog_append, l0, l1, countErrLog]
      · simp only [countStdout_append, so0, so1, countStdout]
    | thrownCache e1 =>
      have hlb : lockBody iso options env = (t0 ++ t1, .error e1) := by
        unfold lockBody
        rw [h0, h1]
      rw [hlb] at h
      exact absurd h (by simp)
    | thrownResolve e1 =>
      have hlb : lockBody iso options env = (t0 ++ t1, .error e1) := by
        unfold lockBody
        rw [h0, h1]
      rw [hlb] at h
      exact absurd h (by simp)
    | thrownExchange e1 =>
      have hlb : lockBody iso options env = (t0 ++ t1, .error e1) := by
        unfold lockBody
        rw [h0, h1]
      rw [hlb] at h
      exact absurd h (by simp)
    | retryWait e1 =>
      exact absurd (iter_retryWait_inv iso options env 1 e1 (by rw [h1])).2
        (by omega)

/-- C7 (amended): on success without `--debug`, stdout carries exactly one
item: the formatted JSON object with all four SessionCredentials fields plus
the literal `Version: 1` — the console transport at level error passes no
record of the successful run.  With `--debug` the transport level is debug
and log records reach stdout as well (see the counterexample), as the
repository README warns. -/
theorem claim_c7 (iso : IsoCodec) (options : Options) (env : Env)
    (c : Credentials)
    (h : (generateCredentials iso options env).2 = .ok c)
    (hdbg : options.debug = false) :
    stdoutOf options (generateCredentials iso options env).1
      = [OutItem.json (outputJson iso c)] := by
  obtain ⟨hres, _, _, _, _, _⟩ := gen_vs_lockBody iso options env
  have hb : (lockBody iso options env).2 = .ok c := by rw [← hres, h]
  obtain ⟨hl, hs⟩ := lockBody_ok_silent iso options env c hb
  rcases hlbp : lockBody iso options env with ⟨bt, br⟩
  rw [hlbp] at hb
  simp only at hb
  subst hb
  rw [hlbp] at hl hs
  simp only at hl hs
  have hgen : generateCredentials iso options env
      = ([.log .info "Generating credentials", .log .dbg "Jittering",
          .lockAcquire, .log .dbg "Lock acquired"] ++ bt
          ++ [.lockRelease, .stdoutJson (outputJson iso c)], .ok c) := by
    unfold generateCredentials
    rw [hlbp]
  rw [hgen]
  simp only
  rw [stdoutOf_append, stdoutOf_append]
  rw [stdoutOf_silent options hdbg
    [.log .info "Generating credentials", .log .dbg "Jittering",
     .lockAcquire, .log .dbg "Lock acquired"] rfl rfl]
  rw [stdoutOf_silent options hdbg bt hl hs]
  have htail : stdoutOf options [.lockRelease, .stdoutJson (outputJson iso c)]
      = [OutItem.json (outputJson iso c)] := rfl
  rw [htail]
  rfl

def credsC7 : Credentials := ⟨"AKIA7", "sec7", "tok7", 1700000003000⟩

def optsC7 : Options := { opItem := "item7", debug := true }

/-- Environment for the C7 counterexample: a cache miss followed by one
successful exchange, run with `--debug`. -/
def envC7 : Env :=
  { tmp := "/tmp"
  , now := fun _ => 1700000000000
  , cacheFileAt := fun _ => CacheFile.err { code := some "ENOENT" }
  , opItemAt := fun _ => .ok fieldsC1
  , stsCall := fun _ _ => .ok (some credsC7) }

/-- Counterexample to C7 as stated: with `--debug` a successful invocation
writes seven items to stdout (six console-transport log lines and the JSON
object), not the single JSON object alone. -/
theorem claim_c7_counterexample :
    optsC7.debug = true
    ∧ (generateCredentials numCodec optsC7 envC7).2 = .ok credsC7
    ∧ (stdoutOf optsC7 (generateCredentials numCodec optsC7 envC7).1).length = 7
    ∧ stdoutOf optsC7 (generateCredentials numCodec optsC7 envC7).1
        ≠ [OutItem.json (outputJson numCodec credsC7)] := by
  have hlen : (stdoutOf optsC7
      (generateCredentials numCodec optsC7 envC7).1).length = 7 := rfl
  refine ⟨rfl, rfl, hlen, ?_⟩
  intro hEq
  rw [hEq] at hlen
  exact absurd hlen (by decide)

def optsC7w : Options := { opItem := "item7" }

/-- Environment for the C7 witness: same success without `--debug`. -/
def envC7w : Env :=
  { tmp := "/tmp"
  , now := fun _ => 1700000000000
  , cacheFileAt := fun _ => CacheFile.err { code := some "ENOENT" }
  , opItemAt := fun _ => .ok fieldsC1
  , stsCall := fun _ _ => .ok (some credsC7) }

/-- Witness for the amended C7: without `--debug` the successful run puts
exactly the JSON object on stdout. -/
theorem claim_c7_witness :
    (generateCredentials numCodec optsC7w envC7w).2 = .ok credsC7
    ∧ optsC7w.debug = false
    ∧ stdoutOf optsC7w (generateCredentials numCodec optsC7w envC7w).1
        = [OutItem.json (outputJson numCodec credsC7)] :=
  ⟨rfl, rfl, claim_c7 numCodec optsC7w envC7w credsC7 rfl rfl⟩

end Opaws
